import Mathlib

/-
  Verification of the diagrama parsing pipeline (crates lib-core and
  lib-plantuml): the PlantUML AST builder (plant_uml_ast.rs), the
  AST-to-diagram mapper (ast_to_diagram_mapper.rs) and the diagram IR
  (diagram.rs), shallowly embedded in Lean.

  Modelling conventions:
  - Rust `String`/`&str` values are modelled as `List Char`; `str` converts a
    Lean string literal.  Rust byte indices coincide with character indices on
    the inputs of interest, and every slice in the source is taken at a
    character boundary found by a character scan, so the character-level model
    is faithful.
  - Rust `HashMap<String, String>` fields are modelled as association lists
    (they stay empty or single-entry in every mapped value).
  - Fallible code (a Rust panic: `unwrap`, `unreachable!`, out-of-range
    slicing) is modelled with `Option`, `none` meaning the panic.
-/

def str (s : String) : List Char := s.data

def isSpaceChar (c : Char) : Bool := c = ' ' || c = '\t' || c = '\n' || c = '\r'

/-- Model of Rust `str::trim` (whitespace restricted to the ASCII whitespace
the DSL can contain). -/
def trimChars (l : List Char) : List Char :=
  ((l.dropWhile isSpaceChar).reverse.dropWhile isSpaceChar).reverse

/-- Split a char list at the FIRST occurrence of `c`, returning the text
before it and the text after it.  This models both Rust's
`split_once(c)` and the `find(c)` + slicing idiom of the source
(`s[..i]` / `s[i+1..]` with `i = s.find(c)`); `none` when `c` does not
occur. -/
def breakFirst (c : Char) : List Char → Option (List Char × List Char)
  | [] => none
  | x :: xs =>
    if x = c then some ([], xs)
    else (breakFirst c xs).map (fun p => (x :: p.1, p.2))

/-- Split a char list at the LAST occurrence of `c` (Rust `rfind(c)` +
slicing): `some (before, after)` where `after` holds the text after the last
`c`. -/
def breakLast (c : Char) (l : List Char) : Option (List Char × List Char) :=
  (breakFirst c l.reverse).map (fun p => (p.2.reverse, p.1.reverse))

/-- Model of Rust `str::split(c)`: keeps empty pieces, `[""]` on empty
input. -/
def splitOnChar (c : Char) : List Char → List (List Char)
  | [] => [[]]
  | x :: xs =>
    if x = c then [] :: splitOnChar c xs
    else
      match splitOnChar c xs with
      | h :: t => (x :: h) :: t
      | [] => [[x]]

-- ---------------------------------------------------------
-- AST data model (src/crates/lib-plantuml/src/infra/ast/plant_uml_ast.rs)
-- ---------------------------------------------------------

inductive Visibility where
  | Public
  | Private
  | Protected
  | Package
deriving DecidableEq, Repr

structure UmlId where
  val : List Char
deriving DecidableEq, Repr

inductive UmlElementKind where
  | Class
  | Interface
  | AbstractClass
  | Enum
  | Component
  | Actor
  | Database
deriving DecidableEq, Repr

structure UmlParameter where
  name : List Char
  param_type : Option (List Char)
deriving DecidableEq, Repr

structure UmlField where
  visibility : Option Visibility
  name : List Char
  field_type : Option (List Char)
deriving DecidableEq, Repr

structure UmlMethod where
  visibility : Option Visibility
  name : List Char
  parameters : List UmlParameter
  return_type : Option (List Char)
deriving DecidableEq, Repr

inductive UmlMember where
  | Field (f : UmlField)
  | Method (m : UmlMethod)
  | Raw (s : List Char)
deriving DecidableEq, Repr

structure UmlStereotype where
  name : List Char
deriving DecidableEq, Repr

inductive UmlModifier where
  | Abstract
  | Static
  | Final
deriving DecidableEq, Repr

structure UmlElement where
  kind : UmlElementKind
  id : UmlId
  display_name : Option (List Char)
  alias_ : Option (List Char)
  stereotype : Option UmlStereotype
  members : List UmlMember
  modifiers : List UmlModifier
deriving DecidableEq, Repr

inductive UmlLineStyle where
  | Solid
  | Dotted
deriving DecidableEq, Repr

inductive UmlArrowEnd where
  | None
  | Association
  | Inheritance
  | Composition
  | Aggregation
  | Dependency
deriving DecidableEq, Repr

structure UmlArrow where
  line : UmlLineStyle
  left : UmlArrowEnd
  right : UmlArrowEnd
deriving DecidableEq, Repr

/-- Rust fields `from`/`to` are Lean keywords, rendered `from_`/`to_`. -/
structure UmlRelation where
  from_ : UmlId
  to_ : UmlId
  arrow : UmlArrow
  label : Option (List Char)
deriving DecidableEq, Repr

inductive UmlPackageKind where
  | Package
  | Namespace
  | Node
  | Folder
  | Rectangle
  | Frame
deriving DecidableEq, Repr

inductive UmlNotePosition where
  | Left
  | Right
  | Top
  | Bottom
  | Over
  | Floating
deriving DecidableEq, Repr

structure UmlNote where
  text : List Char
  position : UmlNotePosition
  target : Option UmlId
deriving DecidableEq, Repr

inductive LayoutDirection where
  | LeftToRight
  | TopToBottom
deriving DecidableEq, Repr

structure UmlHeader where
  title : Option (List Char)
  direction : Option LayoutDirection
deriving DecidableEq, Repr

/-- `UmlStatement` from the source; the `UmlPackage` struct is inlined into
the `Package` constructor (its four fields in source order) so that the
recursive occurrence of `List UmlStatement` is direct. -/
inductive UmlStatement where
  | Element (e : UmlElement)
  | Relation (r : UmlRelation)
  | Package (kind : UmlPackageKind) (id : UmlId) (display_name : Option (List Char))
      (children : List UmlStatement)
  | Note (n : UmlNote)

structure PlantUmlAst where
  header : Option UmlHeader
  statements : List UmlStatement

-- ---------------------------------------------------------
-- AST builder (impl PlantUmlAst, plant_uml_ast.rs)
-- ---------------------------------------------------------

namespace PlantUmlAst

/-- `map_element_kind` (plant_uml_ast.rs 110-121); `none` models the
`unreachable!` branch. -/
def map_element_kind (kind_str : List Char) : Option UmlElementKind :=
  if kind_str = str "class" then some UmlElementKind.Class
  else if kind_str = str "interface" then some UmlElementKind.Interface
  else if kind_str = str "abstract class" then some UmlElementKind.AbstractClass
  else if kind_str = str "enum" then some UmlElementKind.Enum
  else if kind_str = str "component" then some UmlElementKind.Component
  else if kind_str = str "actor" then some UmlElementKind.Actor
  else if kind_str = str "database" then some UmlElementKind.Database
  else none

/-- `build_identifier` (plant_uml_ast.rs 274-283): a quoted identifier yields
its unquoted content as both id and display name.  (The one-character input
`"` satisfies both the starts-with and ends-with test and would make the Rust
slice panic; the grammar's quoted-string rule cannot produce it.) -/
def build_identifier (text : List Char) : UmlId × Option (List Char) :=
  if text.head? = some '"' ∧ text.getLast? = some '"' then
    let inner := (text.drop 1).dropLast
    (⟨inner⟩, some inner)
  else (⟨text⟩, none)

/-- `map_arrow_head` (plant_uml_ast.rs 183-191). -/
def map_arrow_head (s : List Char) : UmlArrowEnd :=
  if s = str "<|" ∨ s = str "|>" then UmlArrowEnd.Inheritance
  else if s = str "*" then UmlArrowEnd.Composition
  else if s = str "o" then UmlArrowEnd.Aggregation
  else if s = str "<" ∨ s = str ">" then UmlArrowEnd.Association
  else UmlArrowEnd.None

/-- The arrow components handed to `build_arrow` by pest: the
`arrow_head_left`, `arrow_head_right` and `line_style` sub-pairs of an
`arrow` pair, each carrying its matched text. -/
inductive ArrowComponent where
  | arrow_head_left (s : List Char)
  | arrow_head_right (s : List Char)
  | line_style (s : List Char)
deriving DecidableEq, Repr

/-- The component loop of `build_arrow` (plant_uml_ast.rs 142-161): fold the
components over the initial state `(left, right, line) = (None, None, Solid)`. -/
def scan_arrow (components : List ArrowComponent) : UmlArrowEnd × UmlArrowEnd × UmlLineStyle :=
  components.foldl
    (fun acc component =>
      match component with
      | ArrowComponent.arrow_head_left s => (map_arrow_head s, acc.2.1, acc.2.2)
      | ArrowComponent.arrow_head_right s => (acc.1, map_arrow_head s, acc.2.2)
      | ArrowComponent.line_style s =>
          (acc.1, acc.2.1, if s.contains '.' then UmlLineStyle.Dotted else UmlLineStyle.Solid))
    (UmlArrowEnd.None, UmlArrowEnd.None, UmlLineStyle.Solid)

/-- `adjust_arrow_for_dependencies` (plant_uml_ast.rs 168-181): on a dotted
line, each end that is `Association` becomes `Dependency`. -/
def adjust_arrow_for_dependencies (line : UmlLineStyle) (left right : UmlArrowEnd) :
    UmlArrowEnd × UmlArrowEnd :=
  if line = UmlLineStyle.Dotted then
    ((if left = UmlArrowEnd.Association then UmlArrowEnd.Dependency else left),
     (if right = UmlArrowEnd.Association then UmlArrowEnd.Dependency else right))
  else (left, right)

/-- `build_arrow` (plant_uml_ast.rs 142-166). -/
def build_arrow (components : List ArrowComponent) : UmlArrow :=
  let scanned := scan_arrow components
  let adjusted := adjust_arrow_for_dependencies scanned.2.2 scanned.1 scanned.2.1
  { line := scanned.2.2, left := adjusted.1, right := adjusted.2 }

/-- `build_relation` (plant_uml_ast.rs 123-140), taking the relation's four
sub-pairs: the two identifier texts, the arrow components and the optional
label pair text (which keeps its leading `:`; `trim_start_matches(':')`
drops every leading colon). -/
def build_relation (from_text : List Char) (components : List ArrowComponent)
    (to_text : List Char) (label_text : Option (List Char)) : UmlRelation :=
  { from_ := (build_identifier from_text).1,
    to_ := (build_identifier to_text).1,
    arrow := build_arrow components,
    label := label_text.map (fun p => trimChars (p.dropWhile (· = ':'))) }

/-- `build_floating_note` (plant_uml_ast.rs 252-261): the `as` alias becomes
the note's target. -/
def build_floating_note (text alias_text : List Char) : UmlNote :=
  { text := text, position := UmlNotePosition.Floating, target := some ⟨alias_text⟩ }

/-- `extract_visibility` (plant_uml_ast.rs 302-310).  The source calls
`chars().next().unwrap()`; its only caller guarantees a non-empty input, on
which the catch-all branch below coincides with the Rust `_` arm. -/
def extract_visibility : List Char → Option Visibility × List Char
  | '+' :: rest => (some Visibility.Public, rest)
  | '-' :: rest => (some Visibility.Private, rest)
  | '#' :: rest => (some Visibility.Protected, rest)
  | '~' :: rest => (some Visibility.Package, rest)
  | l => (none, l)

/-- `parse_parameters` (plant_uml_ast.rs 330-352). -/
def parse_parameters (params_str : List Char) : List UmlParameter :=
  if params_str = [] then []
  else
    (splitOnChar ',' params_str).map (fun p =>
      let p_trimmed := trimChars p
      match breakFirst ':' p_trimmed with
      | some (pname, ptype) =>
          { name := trimChars pname, param_type := some (trimChars ptype) }
      | none => { name := p_trimmed, param_type := none })

/-- `parse_return_type` (plant_uml_ast.rs 354-361), taking the text after the
last `)` (the source's `signature[paren_end + 1..]`; the `signature.len() >
paren_end + 1` test is that text being non-empty). -/
def parse_return_type (after_close : List Char) : Option (List Char) :=
  if after_close = [] then none
  else
    match trimChars after_close with
    | ':' :: ret => some (trimChars ret)
    | _ => none

/-- `parse_method` (plant_uml_ast.rs 312-328).  `breakFirst` is the source's
`find('(')` + slicing, `breakLast` its `rfind(')')` + slicing; the `none`
branch of `breakLast` is the Rust panic of the slice
`signature[paren_start + 1..paren_end]` when the last `)` precedes the first
`(` (slice start greater than slice end). -/
def parse_method (visibility : Option Visibility) (signature : List Char) : Option UmlMember :=
  match breakFirst '(' signature with
  | none => none
  | some (before, after_paren) =>
    match breakLast ')' after_paren with
    | none => none
    | some (params_raw, after_close) =>
      some (UmlMember.Method
        { visibility := visibility,
          name := trimChars before,
          parameters := parse_parameters (trimChars params_raw),
          return_type := parse_return_type after_close })

/-- `parse_field` (plant_uml_ast.rs 363-377); `breakFirst` is
`split_once(':')`. -/
def parse_field (visibility : Option Visibility) (signature : List Char) : UmlMember :=
  match breakFirst ':' signature with
  | some (name, ftype) =>
      UmlMember.Field
        { visibility := visibility, name := trimChars name, field_type := some (trimChars ftype) }
  | none => UmlMember.Field { visibility := visibility, name := signature, field_type := none }

/-- `parse_member_line` (plant_uml_ast.rs 285-300). -/
def parse_member_line (line : List Char) : Option UmlMember :=
  let trimmed := trimChars line
  if trimmed = [] then some (UmlMember.Raw trimmed)
  else
    let vr := extract_visibility trimmed
    let signature := trimChars vr.2
    if signature.contains '(' && signature.contains ')' then
      parse_method vr.1 signature
    else some (parse_field vr.1 signature)

end PlantUmlAst

-- ---------------------------------------------------------
-- Diagram IR (src/crates/lib-core/src/domain/entities/diagram.rs)
-- ---------------------------------------------------------

inductive DiagramKind where
  | Class
  | Sequence
  | Flowchart
  | State
deriving DecidableEq, Repr

inductive NodeType where
  | Default
  | Class
  | Interface
  | Actor
  | Database
  | Start
  | End
deriving DecidableEq, Repr

inductive InteractionType where
  | Association
  | Inheritance
  | Composition
  | Aggregation
  | Dependency
  | ControlFlow
deriving DecidableEq, Repr

inductive LineType where
  | Solid
  | Dashed
  | Dotted
  | Bold
  | Hidden
deriving DecidableEq, Repr

inductive ArrowType where
  | None
  | Vee
  | Cross
  | Triangle
  | FilledTriangle
  | Diamond
  | FilledDiamond
  | Circle
  | FilledCircle
  | CrowFoot
  | HalfOpen
deriving DecidableEq, Repr

inductive ClusterType where
  | Subgraph
  | Package
  | Namespace
  | Rectangle
  | Folder
  | Frame
  | Cloud
  | Database
deriving DecidableEq, Repr

inductive NotePosition where
  | Over
  | Left
  | Right
  | Top
  | Bottom
  | Floating
deriving DecidableEq, Repr

structure Node where
  id : List Char
  label : Option (List Char)
  node_type : NodeType
  properties : List (List Char × List Char)
deriving DecidableEq, Repr

structure EdgeStyle where
  line : LineType
  head : ArrowType
  tail : ArrowType
deriving DecidableEq, Repr

/-- Rust fields `from`/`to` are Lean keywords, rendered `from_`/`to_`. -/
structure Edge where
  from_ : List Char
  to_ : List Char
  label : Option (List Char)
  interaction : InteractionType
  style : EdgeStyle
deriving DecidableEq, Repr

structure Note where
  id : List Char
  text : List Char
  position : NotePosition
  target_node_id : Option (List Char)
deriving DecidableEq, Repr

/-- `Element` from the source; the `Cluster` struct is inlined into the
`Cluster` constructor (its five fields in source order) so that the recursive
occurrence of `List Element` is direct. -/
inductive Element where
  | Node_ (n : Node)
  | Edge_ (e : Edge)
  | Cluster (id : List Char) (label : Option (List Char)) (cluster_type : ClusterType)
      (children : List Element) (properties : List (List Char × List Char))
  | Note_ (n : Note)

structure Diagram where
  title : Option (List Char)
  kind : DiagramKind
  elements : List Element
  styles : List (List Char × List Char)

-- ---------------------------------------------------------
-- Mapper (src/crates/lib-plantuml/src/adapters/ast_to_diagram_mapper.rs)
-- ---------------------------------------------------------

namespace AstToDiagramMapper

mutual

/-- `determine_diagram_kind` (ast_to_diagram_mapper.rs 42-76): Class,
Interface, AbstractClass and Enum elements are definitive; a package's
recursive result is returned immediately; everything else is scanned past;
the fallback is `Class`.  The source's scan loop is rendered with
`statement_kind_signal` giving each iteration's early `return` (if any). -/
def determine_diagram_kind : List UmlStatement → DiagramKind
  | [] => DiagramKind.Class
  | stmt :: rest =>
    match statement_kind_signal stmt with
    | some kind => kind
    | none => determine_diagram_kind rest

/-- One iteration of the `determine_diagram_kind` loop: `some` is the loop
body's early `return`, `none` its `continue`. -/
def statement_kind_signal : UmlStatement → Option DiagramKind
  | UmlStatement.Element elem =>
    match elem.kind with
    | UmlElementKind.Class | UmlElementKind.Interface
    | UmlElementKind.AbstractClass | UmlElementKind.Enum => some DiagramKind.Class
    | UmlElementKind.Actor | UmlElementKind.Database
    | UmlElementKind.Component => none
  | UmlStatement.Package _ _ _ children => some (determine_diagram_kind children)
  | UmlStatement.Note _ => none
  | UmlStatement.Relation _ => none

end

/-- `map_node_type` (ast_to_diagram_mapper.rs 102-110). -/
def map_node_type : UmlElementKind → NodeType
  | UmlElementKind.Class | UmlElementKind.AbstractClass => NodeType.Class
  | UmlElementKind.Interface => NodeType.Interface
  | UmlElementKind.Actor => NodeType.Actor
  | UmlElementKind.Database => NodeType.Database
  | UmlElementKind.Enum | UmlElementKind.Component => NodeType.Default

/-- `map_element` (ast_to_diagram_mapper.rs 87-100): label is
`display_name.or(alias)`, a stereotype lands in the properties map. -/
def map_element (elem : UmlElement) : Node :=
  { id := elem.id.val,
    label := elem.display_name.or elem.alias_,
    node_type := map_node_type elem.kind,
    properties :=
      match elem.stereotype with
      | some stereo => [(str "stereotype", stereo.name)]
      | none => [] }

/-- `map_interaction_type` (ast_to_diagram_mapper.rs 132-141). -/
def map_interaction_type : UmlArrowEnd → Option InteractionType
  | UmlArrowEnd.Inheritance => some InteractionType.Inheritance
  | UmlArrowEnd.Composition => some InteractionType.Composition
  | UmlArrowEnd.Aggregation => some InteractionType.Aggregation
  | UmlArrowEnd.Dependency => some InteractionType.Dependency
  | UmlArrowEnd.Association => some InteractionType.Association
  | UmlArrowEnd.None => none

/-- `determine_interaction` (ast_to_diagram_mapper.rs 126-130): the right end
first, `or_else` the left end, `unwrap_or` Association. -/
def determine_interaction (left right : UmlArrowEnd) : InteractionType :=
  ((map_interaction_type right).or (map_interaction_type left)).getD
    InteractionType.Association

/-- `map_line_type` (ast_to_diagram_mapper.rs 143-148): note that the AST's
`Dotted` maps to the IR's `Dashed`. -/
def map_line_type : UmlLineStyle → LineType
  | UmlLineStyle.Solid => LineType.Solid
  | UmlLineStyle.Dotted => LineType.Dashed

/-- `map_arrow_type` (ast_to_diagram_mapper.rs 150-158). -/
def map_arrow_type : UmlArrowEnd → ArrowType
  | UmlArrowEnd.None => ArrowType.None
  | UmlArrowEnd.Association | UmlArrowEnd.Dependency => ArrowType.Vee
  | UmlArrowEnd.Inheritance => ArrowType.Triangle
  | UmlArrowEnd.Composition => ArrowType.FilledDiamond
  | UmlArrowEnd.Aggregation => ArrowType.Diamond

/-- `map_relation` (ast_to_diagram_mapper.rs 112-124): left to tail, right to
head. -/
def map_relation (rel : UmlRelation) : Edge :=
  { from_ := rel.from_.val,
    to_ := rel.to_.val,
    label := rel.label,
    interaction := determine_interaction rel.arrow.left rel.arrow.right,
    style :=
      { line := map_line_type rel.arrow.line,
        tail := map_arrow_type rel.arrow.left,
        head := map_arrow_type rel.arrow.right } }

/-- `map_cluster_type` (ast_to_diagram_mapper.rs 176-185). -/
def map_cluster_type : UmlPackageKind → ClusterType
  | UmlPackageKind.Package => ClusterType.Package
  | UmlPackageKind.Namespace => ClusterType.Namespace
  | UmlPackageKind.Folder => ClusterType.Folder
  | UmlPackageKind.Rectangle => ClusterType.Rectangle
  | UmlPackageKind.Frame => ClusterType.Frame
  | UmlPackageKind.Node => ClusterType.Subgraph

/-- `map_note_position` (ast_to_diagram_mapper.rs 199-208). -/
def map_note_position : UmlNotePosition → NotePosition
  | UmlNotePosition.Left => NotePosition.Left
  | UmlNotePosition.Right => NotePosition.Right
  | UmlNotePosition.Top => NotePosition.Top
  | UmlNotePosition.Bottom => NotePosition.Bottom
  | UmlNotePosition.Over => NotePosition.Over
  | UmlNotePosition.Floating => NotePosition.Floating

/-- The id `format!("note_{}", n)`. -/
def note_id (n : Nat) : List Char := str "note_" ++ (Nat.repr n).data

/-- `map_note` (ast_to_diagram_mapper.rs 187-197).  The mapper's
`note_counter` field (seeded 0 in `new`, incremented before each id is
assigned) is threaded explicitly: the argument is the counter before the
call, the second component the counter after it. -/
def map_note (counter : Nat) (note : UmlNote) : Note × Nat :=
  let counter' := counter + 1
  ({ id := note_id counter',
     text := note.text,
     position := map_note_position note.position,
     target_node_id := note.target.map UmlId.val }, counter')

mutual

/-- `map_statement` (ast_to_diagram_mapper.rs 78-85) with the note counter
threaded; the `Package` arm is `map_package` (ast_to_diagram_mapper.rs
160-174) inlined. -/
def map_statement (counter : Nat) : UmlStatement → Element × Nat
  | UmlStatement.Element elem => (Element.Node_ (map_element elem), counter)
  | UmlStatement.Relation rel => (Element.Edge_ (map_relation rel), counter)
  | UmlStatement.Package kind id display_name children =>
      let mapped := map_statements counter children
      (Element.Cluster id.val display_name (map_cluster_type kind) mapped.1 [], mapped.2)
  | UmlStatement.Note note =>
      let mapped := map_note counter note
      (Element.Note_ mapped.1, mapped.2)

/-- The statement-by-statement `map` loop (ast_to_diagram_mapper.rs 25-29 and
161-165): one shared counter threaded left to right. -/
def map_statements (counter : Nat) : List UmlStatement → List Element × Nat
  | [] => ([], counter)
  | stmt :: rest =>
      let mapped := map_statement counter stmt
      let mappedRest := map_statements mapped.2 rest
      (mapped.1 :: mappedRest.1, mappedRest.2)

end

/-- `AstToDiagramMapper::map` (ast_to_diagram_mapper.rs 22-37) on a fresh
mapper (`new`, counter 0). -/
def map (ast : PlantUmlAst) : Diagram :=
  { title := ast.header.bind UmlHeader.title,
    kind := determine_diagram_kind ast.statements,
    elements := (map_statements 0 ast.statements).1,
    styles := [] }

end AstToDiagramMapper

-- ---------------------------------------------------------
-- Grammar front end (modelled from the spec; the pest grammar file and
-- plantuml_pest_parser.rs are not under src/)
-- ---------------------------------------------------------

/-- Modelled from the spec: the parse-tree shape of the two statement
productions the concrete scenarios use, `class_def = element_kind identifier`
and `relation_def = identifier arrow identifier label?` (spec section 4.1);
the label pair keeps its leading `:` exactly as `build_relation` expects. -/
inductive RawStatement where
  | class_def (kind_text ident_text : List Char)
  | relation_def (from_text arrow_text to_text : List Char) (label_text : Option (List Char))
deriving DecidableEq, Repr

/-- Modelled from the spec: the `element_kind` keywords of section 4.1
(`abstract class` is recognized separately, being two tokens). -/
def element_kind_tokens : List (List Char) :=
  [str "class", str "interface", str "enum", str "component", str "actor", str "database"]

def isDashChar (c : Char) : Bool := c = '-' || c = '.'

/-- Modelled from the spec: the left arrow-head glyphs of the production
`arrow = line_style? arrow_head_left? dash_run arrow_head_right? line_style?`
(glyphs `<| |> * o < >`, section 4.1), read as a prefix. -/
def left_glyph : List Char → Option (List Char × List Char)
  | '<' :: '|' :: rest => some (str "<|", rest)
  | '<' :: rest => some (str "<", rest)
  | '*' :: rest => some (str "*", rest)
  | 'o' :: rest => some (str "o", rest)
  | _ => none

/-- Modelled from the spec: a right arrow-head glyph consuming the whole
remaining text. -/
def right_glyph (l : List Char) : Option (List Char) :=
  if l = str "|>" ∨ l = str ">" ∨ l = str "*" ∨ l = str "o" then some l else none

/-- Modelled from the spec: tokenize one arrow into the sub-pairs pest hands
to `build_arrow`: an optional `arrow_head_left`, the dash run as the
`line_style` pair (`--` solid, `..` dotted), an optional `arrow_head_right`.
`none` is a syntax error. -/
def arrow_components (l : List Char) : Option (List PlantUmlAst.ArrowComponent) :=
  let lg := left_glyph l
  let rest := match lg with | some p => p.2 | none => l
  let run := rest.takeWhile isDashChar
  let rest2 := rest.dropWhile isDashChar
  if run = [] then none
  else
    (if rest2 = [] then some none else (right_glyph rest2).map some).map (fun rg =>
      (match lg with
       | some p => [PlantUmlAst.ArrowComponent.arrow_head_left p.1]
       | none => [])
      ++ [PlantUmlAst.ArrowComponent.line_style run]
      ++ (match rg with
          | some g => [PlantUmlAst.ArrowComponent.arrow_head_right g]
          | none => []))

/-- Split a line into whitespace-separated words. -/
def splitWords (l : List Char) : List (List Char) :=
  (splitOnChar ' ' l).filter (fun w => w ≠ [])

def joinWords : List (List Char) → List Char
  | [] => []
  | [w] => w
  | w :: rest => w ++ ' ' :: joinWords rest

/-- Modelled from the spec: recognize one statement line as a `class_def` or
a `relation_def` (section 4.1); `none` is a syntax error. -/
def grammar_statement (line : List Char) : Option RawStatement :=
  match splitWords line with
  | [w1, w2] =>
      if element_kind_tokens.contains w1 then some (RawStatement.class_def w1 w2) else none
  | [w1, w2, w3] =>
      if w1 = str "abstract" ∧ w2 = str "class" then
        some (RawStatement.class_def (str "abstract class") w3)
      else if (arrow_components w2).isSome then
        some (RawStatement.relation_def w1 w2 w3 none)
      else none
  | w1 :: w2 :: w3 :: w4 :: rest =>
      if (arrow_components w2).isSome ∧ w4.head? = some ':' then
        some (RawStatement.relation_def w1 w2 w3 (some (joinWords (w4 :: rest))))
      else none
  | _ => none

/-- Modelled from the spec: the `file` production of section 4.1 — optional
`@startuml`/`@enduml` markers are discarded, blank lines skipped, every
remaining line must be a statement. -/
def grammar_file (source : List Char) : Option (List RawStatement) :=
  (((splitOnChar '\n' source).map trimChars).filter
      (fun l => l ≠ [] ∧ l ≠ str "@startuml" ∧ l ≠ str "@enduml")).mapM
    grammar_statement

namespace PlantUmlAst

/-- `build_element` (plant_uml_ast.rs 61-83) for a body-less `class_def`
parse tree (kind pair and identifier pair only): alias, stereotype, members
and modifiers stay at their initial values. -/
def build_element (kind_text ident_text : List Char) : Option UmlElement :=
  (map_element_kind kind_text).map (fun kind =>
    let ident := build_identifier ident_text
    { kind := kind, id := ident.1, display_name := ident.2,
      alias_ := none, stereotype := none, members := [], modifiers := [] })

/-- `build_statement` (plant_uml_ast.rs 51-59) over the modelled parse
tree. -/
def build_statement : RawStatement → Option UmlStatement
  | RawStatement.class_def kind_text ident_text =>
      (build_element kind_text ident_text).map UmlStatement.Element
  | RawStatement.relation_def from_text arrow_text to_text label_text =>
      (arrow_components arrow_text).map (fun components =>
        UmlStatement.Relation (build_relation from_text components to_text label_text))

/-- `PlantUmlAst::from_raw` (plant_uml_ast.rs 16-29) over the modelled
grammar: the header is always `None` (plant_uml_ast.rs 26). -/
def from_raw (source : List Char) : Option PlantUmlAst :=
  (grammar_file source).bind (fun raws =>
    (raws.mapM build_statement).map (fun stmts => { header := none, statements := stmts }))

end PlantUmlAst

/-- The whole pipeline of the two-stage design: grammar, AST builder, then a
fresh mapper. -/
def parse_diagram (source : List Char) : Option Diagram :=
  (PlantUmlAst.from_raw source).map AstToDiagramMapper.map

-- Extractors used to state claims about produced diagrams.

def diagram_edges (d : Diagram) : List Edge :=
  d.elements.filterMap (fun e =>
    match e with
    | Element.Edge_ edge => some edge
    | _ => none)

def diagram_nodes (d : Diagram) : List Node :=
  d.elements.filterMap (fun e =>
    match e with
    | Element.Node_ node => some node
    | _ => none)

def top_level_notes (d : Diagram) : List Note :=
  d.elements.filterMap (fun e =>
    match e with
    | Element.Note_ note => some note
    | _ => none)

-- ---------------------------------------------------------
-- Spec-side member-line descriptions (for claim C8)
-- ---------------------------------------------------------

/-- The member-line algorithm exactly as the spec's claim words it, for
comparison with `parse_member_line`: a non-empty line is trimmed, one
optional leading visibility sigil is stripped, and then — if the remaining
signature contains both `(` and `)` — the method name is THE text before the
first `(`, the parameters are the comma-split of THE text between the first
`(` and the last `)` each split once on `:` into name/type, and the return
type is the text after the last `)` with a required leading `:` stripped and
trimmed (absent if nothing follows or the `:` is missing); otherwise the
field name/type are the two halves of one split on `:`.  No other trimming
and no empty-parameter-list special case appear in the claim's words. -/
def member_line_as_claimed (line : List Char) : Option UmlMember :=
  let trimmed := trimChars line
  if trimmed = [] then none
  else
    let vr := PlantUmlAst.extract_visibility trimmed
    let signature := vr.2
    if signature.contains '(' && signature.contains ')' then
      match breakFirst '(' signature with
      | none => none
      | some (before, after_paren) =>
        match breakLast ')' after_paren with
        | none => none
        | some (between, after_close) =>
          some (UmlMember.Method
            { visibility := vr.1,
              name := before,
              parameters :=
                (splitOnChar ',' between).map (fun p =>
                  match breakFirst ':' p with
                  | some (pname, ptype) => { name := pname, param_type := some ptype }
                  | none => { name := p, param_type := none }),
              return_type :=
                if after_close = [] then none
                else
                  match after_close with
                  | ':' :: ret => some (trimChars ret)
                  | _ => none })
    else
      some (UmlMember.Field
        (match breakFirst ':' signature with
         | some (name, ftype) => { visibility := vr.1, name := name, field_type := some ftype }
         | none => { visibility := vr.1, name := signature, field_type := none }))

/-- The member-line algorithm as the amended claim describes it: as
`member_line_as_claimed`, but (1) the signature left after stripping the
sigil is trimmed, (2) the method name, the parameter text, each parameter
and each parameter name/type and field name/type are trimmed, (3) an empty
(after trimming) parameter text yields no parameters rather than one empty
one, (4) the text after the last `)` is trimmed before the leading `:` is
required, and (5) no member is produced (the builder panics) when the last
`)` precedes the first `(`. -/
def member_line_described (line : List Char) : Option UmlMember :=
  let trimmed := trimChars line
  if trimmed = [] then none
  else
    let vr := PlantUmlAst.extract_visibility trimmed
    let signature := trimChars vr.2
    if signature.contains '(' && signature.contains ')' then
      match breakFirst '(' signature with
      | none => none
      | some (before, after_paren) =>
        match breakLast ')' after_paren with
        | none => none
        | some (between, after_close) =>
          some (UmlMember.Method
            { visibility := vr.1,
              name := trimChars before,
              parameters :=
                (if trimChars between = [] then []
                 else
                   (splitOnChar ',' (trimChars between)).map (fun p =>
                     match breakFirst ':' (trimChars p) with
                     | some (pname, ptype) =>
                         { name := trimChars pname, param_type := some (trimChars ptype) }
                     | none => { name := trimChars p, param_type := none })),
              return_type :=
                if after_close = [] then none
                else
                  match trimChars after_close with
                  | ':' :: ret => some (trimChars ret)
                  | _ => none })
    else
      some (UmlMember.Field
        (match breakFirst ':' signature with
         | some (name, ftype) =>
             { visibility := vr.1, name := trimChars name, field_type := some (trimChars ftype) }
         | none => { visibility := vr.1, name := signature, field_type := none }))

-- ---------------------------------------------------------
-- Note-id bookkeeping (for claims about the mapper's note counter)
-- ---------------------------------------------------------

mutual

/-- Number of note statements inside one statement, packages included
(depth-first). -/
def count_notes_stmt : UmlStatement → Nat
  | UmlStatement.Package _ _ _ children => count_notes children
  | UmlStatement.Note _ => 1
  | UmlStatement.Element _ => 0
  | UmlStatement.Relation _ => 0

/-- Number of note statements in a statement list, depth-first. -/
def count_notes : List UmlStatement → Nat
  | [] => 0
  | stmt :: rest => count_notes_stmt stmt + count_notes rest

end

mutual

/-- The ids of the notes inside one mapped element, depth-first. -/
def note_ids_elem : Element → List (List Char)
  | Element.Cluster _ _ _ children _ => note_ids children
  | Element.Note_ note => [note.id]
  | Element.Node_ _ => []
  | Element.Edge_ _ => []

/-- The ids of the notes in a mapped element list, depth-first. -/
def note_ids : List Element → List (List Char)
  | [] => []
  | e :: rest => note_ids_elem e ++ note_ids rest

end

/-- The id sequence `note_<c+1>, …, note_<c+n>`. -/
def note_id_range (c : Nat) : Nat → List (List Char)
  | 0 => []
  | n + 1 => AstToDiagramMapper.note_id (c + 1) :: note_id_range (c + 1) n

theorem note_id_range_append (m : Nat) :
    ∀ c k, note_id_range c m ++ note_id_range (c + m) k = note_id_range c (m + k) := by
  induction m with
  | zero => intro c k; simp [note_id_range]
  | succ m ih =>
    intro c k
    have h1 : c + (m + 1) = (c + 1) + m := by omega
    have h2 : m + 1 + k = (m + k) + 1 := by omega
    simp only [note_id_range, List.cons_append, h1, h2, ih (c + 1) k]

mutual

theorem note_ids_map_statement (stmt : UmlStatement) : ∀ c : Nat,
    note_ids_elem (AstToDiagramMapper.map_statement c stmt).1
        = note_id_range c (count_notes_stmt stmt)
      ∧ (AstToDiagramMapper.map_statement c stmt).2 = c + count_notes_stmt stmt := by
  cases stmt with
  | Element e =>
    intro c
    simp [AstToDiagramMapper.map_statement, count_notes_stmt, note_ids_elem, note_id_range]
  | Relation r =>
    intro c
    simp [AstToDiagramMapper.map_statement, count_notes_stmt, note_ids_elem, note_id_range]
  | Package kind id dn children =>
    intro c
    have h := note_ids_map_statements children c
    simp only [AstToDiagramMapper.map_statement, count_notes_stmt, note_ids_elem]
    exact ⟨h.1, h.2⟩
  | Note n =>
    intro c
    simp [AstToDiagramMapper.map_statement, AstToDiagramMapper.map_note, count_notes_stmt,
      note_ids_elem, note_id_range]

theorem note_ids_map_statements (stmts : List UmlStatement) : ∀ c : Nat,
    note_ids (AstToDiagramMapper.map_statements c stmts).1
        = note_id_range c (count_notes stmts)
      ∧ (AstToDiagramMapper.map_statements c stmts).2 = c + count_notes stmts := by
  cases stmts with
  | nil =>
    intro c
    simp [AstToDiagramMapper.map_statements, count_notes, note_ids, note_id_range]
  | cons stmt rest =>
    intro c
    have h1 := note_ids_map_statement stmt c
    have h2 := note_ids_map_statements rest (c + count_notes_stmt stmt)
    simp only [AstToDiagramMapper.map_statements, count_notes, note_ids]
    constructor
    · rw [h1.1, h1.2, h2.1, note_id_range_append]
    · rw [h1.2, h2.2]; omega

end

-- ---------------------------------------------------------
-- Claims
-- ---------------------------------------------------------

/-- C1, counterexample: for the input `Auth ..> User` the pipeline produces
exactly one edge, and that edge's style is NOT the claimed
`{line: Dotted, tail: None, head: Vee}` — `map_line_type` sends the AST's
`Dotted` to the IR's `Dashed`, so the produced style has `line: Dashed`. -/
theorem dotted_relation_line_not_dotted :
    (parse_diagram (str "Auth ..> User")).map diagram_edges
        = some [{ from_ := str "Auth", to_ := str "User", label := none,
                  interaction := InteractionType.Dependency,
                  style := { line := LineType.Dashed, head := ArrowType.Vee,
                             tail := ArrowType.None } }]
      ∧ (parse_diagram (str "Auth ..> User")).map diagram_edges
          ≠ some [{ from_ := str "Auth", to_ := str "User", label := none,
                    interaction := InteractionType.Dependency,
                    style := { line := LineType.Dotted, head := ArrowType.Vee,
                               tail := ArrowType.None } }] :=
  ⟨rfl, by decide⟩

/-- C1, amended: for the input `Auth ..> User`, parse produces exactly one
Edge whose interaction is Dependency and whose style is
`{line: Dashed, tail: None, head: Vee}` (the right arrow end is upgraded from
Association because the line is dotted; the dotted AST line style is lowered
to the IR's Dashed). -/
theorem dotted_relation_maps_to_dashed_edge :
    parse_diagram (str "Auth ..> User")
      = some { title := none, kind := DiagramKind.Class,
               elements := [Element.Edge_
                 { from_ := str "Auth", to_ := str "User", label := none,
                   interaction := InteractionType.Dependency,
                   style := { line := LineType.Dashed, head := ArrowType.Vee,
                              tail := ArrowType.None } }],
               styles := [] } := rfl

/-- C2: for every arrow, after the component scan, a dotted line upgrades
each end that is `Association` to `Dependency` — both ends independently —
while a solid line leaves both ends unchanged, and `build_arrow` stores
exactly the adjusted ends. -/
theorem dotted_upgrade_rule :
    (∀ l r : UmlArrowEnd,
        PlantUmlAst.adjust_arrow_for_dependencies UmlLineStyle.Dotted l r
            = ((if l = UmlArrowEnd.Association then UmlArrowEnd.Dependency else l),
               (if r = UmlArrowEnd.Association then UmlArrowEnd.Dependency else r))
          ∧ PlantUmlAst.adjust_arrow_for_dependencies UmlLineStyle.Solid l r = (l, r))
    ∧ ∀ components : List PlantUmlAst.ArrowComponent,
        PlantUmlAst.build_arrow components
          = { line := (PlantUmlAst.scan_arrow components).2.2,
              left := (PlantUmlAst.adjust_arrow_for_dependencies
                        (PlantUmlAst.scan_arrow components).2.2
                        (PlantUmlAst.scan_arrow components).1
                        (PlantUmlAst.scan_arrow components).2.1).1,
              right := (PlantUmlAst.adjust_arrow_for_dependencies
                        (PlantUmlAst.scan_arrow components).2.2
                        (PlantUmlAst.scan_arrow components).1
                        (PlantUmlAst.scan_arrow components).2.1).2 } :=
  ⟨fun l r => by cases l <;> cases r <;> exact ⟨rfl, rfl⟩, fun components => rfl⟩

/-- C3, counterexample: for the input `class User` the pipeline produces
exactly one node, and that node's label is `none`, not the claimed
`some "User"` — an unquoted identifier yields no display name, the element
has no alias, and `map_element` sets `label = display_name.or(alias)`. -/
theorem class_user_label_not_some :
    (parse_diagram (str "class User")).map diagram_nodes
        = some [{ id := str "User", label := none, node_type := NodeType.Class,
                  properties := [] }]
      ∧ (parse_diagram (str "class User")).map diagram_nodes
          ≠ some [{ id := str "User", label := some (str "User"),
                    node_type := NodeType.Class, properties := [] }] :=
  ⟨rfl, by decide⟩

/-- C3, amended: for the input `class User`, parse produces exactly one Node
with id `User`, label `none` (no display name and no alias are present) and
node_type Class. -/
theorem class_user_maps_to_unlabelled_node :
    parse_diagram (str "class User")
      = some { title := none, kind := DiagramKind.Class,
               elements := [Element.Node_
                 { id := str "User", label := none, node_type := NodeType.Class,
                   properties := [] }],
               styles := [] } := rfl

/-- C4: for every relation, the mapped edge's interaction is
`determine_interaction` of the two arrow ends, which is the meaning of the
right end when that end carries one (is not `None`), otherwise the meaning of
the left end, otherwise `Association` when both ends are `None`. -/
theorem interaction_right_end_first :
    (∀ rel : UmlRelation,
        (AstToDiagramMapper.map_relation rel).interaction
          = AstToDiagramMapper.determine_interaction rel.arrow.left rel.arrow.right)
    ∧ ∀ l r : UmlArrowEnd,
        some (AstToDiagramMapper.determine_interaction l r)
          = (if r = UmlArrowEnd.None then
               (if l = UmlArrowEnd.None then some InteractionType.Association
                else AstToDiagramMapper.map_interaction_type l)
             else AstToDiagramMapper.map_interaction_type r) :=
  ⟨fun _ => rfl, fun l r => by cases l <;> cases r <;> rfl⟩

/-- C5: kind inference returns the recursive scan of a package's children the
moment it reaches the package — whatever the following statements are, they
are never examined — while relations, notes and Actor/Database/Component
elements are scanned past and Class/Interface/AbstractClass/Enum elements
return `Class` at once. -/
theorem kind_inference_package_short_circuit :
    (∀ (kind : UmlPackageKind) (id : UmlId) (dn : Option (List Char))
        (children rest : List UmlStatement),
        AstToDiagramMapper.determine_diagram_kind
            (UmlStatement.Package kind id dn children :: rest)
          = AstToDiagramMapper.determine_diagram_kind children)
    ∧ (∀ (r : UmlRelation) (rest : List UmlStatement),
        AstToDiagramMapper.determine_diagram_kind (UmlStatement.Relation r :: rest)
          = AstToDiagramMapper.determine_diagram_kind rest)
    ∧ (∀ (n : UmlNote) (rest : List UmlStatement),
        AstToDiagramMapper.determine_diagram_kind (UmlStatement.Note n :: rest)
          = AstToDiagramMapper.determine_diagram_kind rest)
    ∧ ∀ (e : UmlElement) (rest : List UmlStatement),
        AstToDiagramMapper.determine_diagram_kind (UmlStatement.Element e :: rest)
          = (if e.kind = UmlElementKind.Class ∨ e.kind = UmlElementKind.Interface
                ∨ e.kind = UmlElementKind.AbstractClass ∨ e.kind = UmlElementKind.Enum
             then DiagramKind.Class
             else AstToDiagramMapper.determine_diagram_kind rest) := by
  refine ⟨fun kind id dn children rest => rfl, fun r rest => rfl, fun n rest => rfl,
    fun e rest => ?_⟩
  obtain ⟨kind, id, dn, al, st, mem, mods⟩ := e
  cases kind <;> rfl

/-- The counterexample document for C6: a package containing one note,
followed by one top-level note. -/
def note_counter_cx_ast : PlantUmlAst :=
  { header := none,
    statements :=
      [UmlStatement.Package UmlPackageKind.Package ⟨str "P"⟩ none
         [UmlStatement.Note { text := str "inner", position := UmlNotePosition.Floating,
                              target := none }],
       UmlStatement.Note { text := str "outer", position := UmlNotePosition.Floating,
                           target := none }] }

/-- C6, counterexample: the mapper's note counter is shared with the notes
inside packages, so in a document whose top-level statements contain exactly
one note (preceded by a package holding another note) that sole top-level
note receives the id `note_2`, not the claimed `note_1`. -/
theorem note_ids_skip_after_package_note :
    top_level_notes (AstToDiagramMapper.map note_counter_cx_ast)
        = [{ id := str "note_2", text := str "outer", position := NotePosition.Floating,
             target_node_id := none }]
      ∧ ([({ id := str "note_2", text := str "outer", position := NotePosition.Floating,
             target_node_id := none } : Note)]
          ≠ [{ id := str "note_1", text := str "outer", position := NotePosition.Floating,
               target_node_id := none }]) :=
  ⟨rfl, by decide⟩

/-- C6, amended: for every document, the mapper assigns the ids
`note_1 … note_N` in order to the document's N note statements taken in
depth-first order (descending into package children where they occur),
regardless of each note's positional or floating kind, the counter being
seeded at 0 and incremented before each id is assigned; for a document whose
packages contain no notes this is exactly top-level order. -/
theorem note_id_sequencing_depth_first (ast : PlantUmlAst) :
    note_ids (AstToDiagramMapper.map ast).elements
      = note_id_range 0 (count_notes ast.statements) :=
  (note_ids_map_statements ast.statements 0).1

/-- C7: for every relation, `style.tail` is `map_arrow_type` of the left
arrow end alone and `style.head` is `map_arrow_type` of the right arrow end
alone (the other relation fields are arbitrary and absent from the
right-hand sides), and mapping the relation with the two ends swapped
produces the edge style with head and tail exchanged. -/
theorem edge_directionality_left_tail_right_head :
    ∀ (f t : List Char) (label : Option (List Char)) (line : UmlLineStyle)
      (l r : UmlArrowEnd),
      (AstToDiagramMapper.map_relation ⟨⟨f⟩, ⟨t⟩, ⟨line, l, r⟩, label⟩).style.tail
          = AstToDiagramMapper.map_arrow_type l
        ∧ (AstToDiagramMapper.map_relation ⟨⟨f⟩, ⟨t⟩, ⟨line, l, r⟩, label⟩).style.head
          = AstToDiagramMapper.map_arrow_type r
        ∧ (AstToDiagramMapper.map_relation ⟨⟨f⟩, ⟨t⟩, ⟨line, r, l⟩, label⟩).style.head
          = (AstToDiagramMapper.map_relation ⟨⟨f⟩, ⟨t⟩, ⟨line, l, r⟩, label⟩).style.tail
        ∧ (AstToDiagramMapper.map_relation ⟨⟨f⟩, ⟨t⟩, ⟨line, r, l⟩, label⟩).style.tail
          = (AstToDiagramMapper.map_relation ⟨⟨f⟩, ⟨t⟩, ⟨line, l, r⟩, label⟩).style.head :=
  fun _ _ _ _ _ _ => ⟨rfl, rfl, rfl, rfl⟩

/-- C8, counterexample: on the member line
`+getName(includeLastName: Boolean): String` (taken from the repository's own
test), the source parser trims the parameter type to `Boolean`, while the
claim's literal reading — the parameter text split once on `:` into
name/type, nothing more — yields the type ` Boolean` with its leading space,
so the two disagree. -/
theorem member_line_literal_reading_fails :
    PlantUmlAst.parse_member_line (str "+getName(includeLastName: Boolean): String")
        = some (UmlMember.Method
            { visibility := some Visibility.Public, name := str "getName",
              parameters := [{ name := str "includeLastName",
                               param_type := some (str "Boolean") }],
              return_type := some (str "String") })
      ∧ member_line_as_claimed (str "+getName(includeLastName: Boolean): String")
          = some (UmlMember.Method
              { visibility := some Visibility.Public, name := str "getName",
                parameters := [{ name := str "includeLastName",
                                 param_type := some (str " Boolean") }],
                return_type := some (str "String") })
      ∧ PlantUmlAst.parse_member_line (str "+getName(includeLastName: Boolean): String")
          ≠ member_line_as_claimed (str "+getName(includeLastName: Boolean): String") :=
  ⟨rfl, rfl, by decide⟩

/-- C8, amended: for every non-empty member line, `parse_member_line` behaves
exactly as the claim describes once (1) the signature left after stripping
the sigil is re-trimmed, (2) the method name, parameter text, parameter
names/types and field names/types are trimmed, (3) an empty parameter text
yields no parameters, (4) the text after the last `)` is trimmed before the
required leading `:` is checked, and (5) no member is produced when the last
`)` precedes the first `(` (there the Rust slice panics). -/
theorem member_line_parsing_described (line : List Char) (h : trimChars line ≠ []) :
    PlantUmlAst.parse_member_line line = member_line_described line := by
  unfold PlantUmlAst.parse_member_line member_line_described
  simp only [if_neg h]
  split
  · unfold PlantUmlAst.parse_method
    cases hbf : breakFirst '(' (trimChars (PlantUmlAst.extract_visibility (trimChars line)).2) with
    | none => rfl
    | some p =>
      obtain ⟨before, after_paren⟩ := p
      cases hbl : breakLast ')' after_paren with
      | none => rfl
      | some q => obtain ⟨between, after_close⟩ := q; rfl
  · unfold PlantUmlAst.parse_field
    cases hbf : breakFirst ':' (trimChars (PlantUmlAst.extract_visibility (trimChars line)).2) with
    | none => rfl
    | some p => obtain ⟨name, ftype⟩ := p; rfl

/-- Witness for the amended C8 theorem at a concrete member line. -/
theorem member_line_parsing_described_witness :
    trimChars (str "+getName(a: Int): Bool") ≠ []
      ∧ PlantUmlAst.parse_member_line (str "+getName(a: Int): Bool")
        = member_line_described (str "+getName(a: Int): Bool") :=
  ⟨by decide, member_line_parsing_described (str "+getName(a: Int): Bool") (by decide)⟩

/-- C9: for every floating note `note "text" as N`, the AST builder stores
the alias as the note's target, and the mapper passes it through unchanged:
the mapped note's position is Floating and its `target_node_id` is
`some alias` — in particular never `none`. -/
theorem floating_note_target_is_alias :
    ∀ (text alias_text : List Char) (c : Nat),
      (PlantUmlAst.build_floating_note text alias_text).position = UmlNotePosition.Floating
        ∧ (PlantUmlAst.build_floating_note text alias_text).target = some ⟨alias_text⟩
        ∧ (AstToDiagramMapper.map_note c
              (PlantUmlAst.build_floating_note text alias_text)).1.position
          = NotePosition.Floating
        ∧ (AstToDiagramMapper.map_note c
              (PlantUmlAst.build_floating_note text alias_text)).1.target_node_id
          = some alias_text :=
  fun _ _ _ => ⟨rfl, rfl, rfl, rfl⟩

/-- C10: evaluating the AST builder at the failing input — the member line
`)(`, raw text the grammar's member production admits — yields `none`, the
model of the Rust panic: `parse_method` slices
`signature[paren_start + 1..paren_end]` with `paren_start + 1 = 2` and
`paren_end = 0`, a slice whose start exceeds its end, so the builder is not
total over grammar-producible trees. -/
theorem member_line_paren_order_panics :
    PlantUmlAst.parse_member_line (str ")(") = none := rfl
